import Mathlib

/-!
Shallow embedding of the command pipeline of app.py, the single source file of
the telegram-hyperliquid-bot repository.

Modelling choices:
- Parsed JSON documents (the Python values produced by response.json()) are the
  inductive type Json below.  JSON numbers are modelled on their integer
  fragment (Json.num carries an Int); none of the verified properties depends
  on float rendering.  A Python dict is its field list; keys are unique in
  every upstream document, so first-occurrence lookup models dict access.
- The HTTP layer is modelled by HttpResult: either a network failure or a
  response carrying a status code and the JSON-parse outcome of the body
  (none when the body is not parseable JSON), which is exactly what
  requests.post followed by raise_for_status and response.json observes.
  raise_for_status raises precisely for status codes in [400, 600).
- Python exceptions inside a handler body are the error branch of
  Except String; the message text carried is a faithful stand-in for str(e).
- The two command handlers analytics and top20 are translated statement by
  statement: field access with dict.get and a default, truthiness of the
  isLong value, f-string rendering via str(), list slicing [:20], and the
  enumerate-from-1 loop that builds the reply lines.
-/

/-- A parsed JSON document as the Python value json decoding yields. -/
inductive Json where
  | null : Json
  | bool : Bool → Json
  | num : Int → Json
  | str : String → Json
  | arr : List Json → Json
  | obj : List (String × Json) → Json

/-- Name of the Python type of a decoded JSON value, as it appears in
exception messages such as AttributeError. -/
def pyTypeName : Json → String
  | Json.null => "NoneType"
  | Json.bool _ => "bool"
  | Json.num _ => "int"
  | Json.str _ => "str"
  | Json.arr _ => "list"
  | Json.obj _ => "dict"

/-- Python truthiness of a decoded JSON value, as used by
the conditional expression on is_long in the top20 handler. -/
def pyTruthy : Json → Bool
  | Json.null => false
  | Json.bool b => b
  | Json.num n => n != 0
  | Json.str s => s != ""
  | Json.arr xs => !xs.isEmpty
  | Json.obj fs => !fs.isEmpty

mutual
/-- Python repr of a decoded JSON value (integer fragment; plain strings). -/
def pyRepr : Json → String
  | Json.null => "None"
  | Json.bool true => "True"
  | Json.bool false => "False"
  | Json.num n => toString n
  | Json.str s => "\x27" ++ s ++ "\x27"
  | Json.arr xs => "[" ++ pyReprItems xs ++ "]"
  | Json.obj fs => "\x7b" ++ pyReprPairs fs ++ "\x7d"

/-- Comma-separated repr of list items, as inside Python str(list). -/
def pyReprItems : List Json → String
  | [] => ""
  | [j] => pyRepr j
  | j :: js => pyRepr j ++ ", " ++ pyReprItems js

/-- Comma-separated repr of dict entries, as inside Python str(dict). -/
def pyReprPairs : List (String × Json) → String
  | [] => ""
  | [(k, v)] => "\x27" ++ k ++ "\x27: " ++ pyRepr v
  | (k, v) :: ps => "\x27" ++ k ++ "\x27: " ++ pyRepr v ++ ", " ++ pyReprPairs ps
end

/-- Python str of a decoded JSON value: what an f-string interpolation slot
renders.  A string renders as itself; every other value via its repr. -/
def pyStr : Json → String
  | Json.str s => s
  | j => pyRepr j

/-- Python expression j.get(key, dflt): succeeds on a dict, returning the
stored value or the default; on any other value it raises AttributeError. -/
def pyGet (j : Json) (key : String) (dflt : Json) : Except String Json :=
  match j with
  | Json.obj fs => Except.ok ((fs.lookup key).getD dflt)
  | _ => Except.error (pyTypeName j ++ " object has no attribute get")

/-- Python slicing j[:n]: a prefix of a list or of a string (whose items are
one-character strings); any other value raises TypeError. -/
def pySlice (j : Json) (n : Nat) : Except String (List Json) :=
  match j with
  | Json.arr xs => Except.ok (xs.take n)
  | Json.str s => Except.ok ((s.toList.take n).map (fun c => Json.str (String.singleton c)))
  | _ => Except.error (pyTypeName j ++ " object is not subscriptable")

/-- Outcome of the HTTP POST issued by fetch_hyperliquid: a network failure,
or a response with its status code and the JSON-parse outcome of its body. -/
inductive HttpResult where
  | netError : String → HttpResult
  | response : Nat → Option Json → HttpResult

/-- The fetch_hyperliquid function of app.py over an HTTP outcome: a network
failure raises; raise_for_status raises on a status in [400, 600); then
response.json() raises when the body is not parseable JSON; otherwise the
parsed document is returned. -/
def fetch_hyperliquid : HttpResult → Except String Json
  | HttpResult.netError msg => Except.error msg
  | HttpResult.response status body =>
      if 400 ≤ status ∧ status < 600 then
        Except.error ("HTTP status error " ++ toString status)
      else
        match body with
        | none => Except.error "Expecting value: JSON decode failed"
        | some j => Except.ok j

/-- The four field reads of the analytics handler, in source order:
summary_data.get of totalNotional, longNotional, shortNotional and bias,
each defaulting to the string N/A. -/
def analyticsReported (doc : Json) : Except String (Json × Json × Json × Json) := do
  let total_notional ← pyGet doc "totalNotional" (Json.str "N/A")
  let long_positions ← pyGet doc "longNotional" (Json.str "N/A")
  let short_positions ← pyGet doc "shortNotional" (Json.str "N/A")
  let global_bias ← pyGet doc "bias" (Json.str "N/A")
  pure (total_notional, long_positions, short_positions, global_bias)

/-- The f-string template of the analytics reply, with the four interpolation
slots already rendered to strings. -/
def analyticsTemplate (t l s b : String) : String :=
  "📊 **Analytics de Hyperliquid**\n\n**TOTAL NOTIONAL:** " ++ t ++
  "\n**LONG POSITIONS:** " ++ l ++ "\n**SHORT POSITIONS:** " ++ s ++
  "\n**GLOBAL BIAS:** " ++ b ++ "\n\n*Datos de Hyperliquid API.*"

/-- Body of the try block of the analytics handler: read the four fields,
then render the reply text. -/
def analyticsBody (doc : Json) : Except String String :=
  (analyticsReported doc).map
    (fun r => analyticsTemplate (pyStr r.1) (pyStr r.2.1) (pyStr r.2.2.1) (pyStr r.2.2.2))

/-- The analytics handler around its try/except: the argument is the outcome
of fetch_hyperliquid; any exception, from the fetch or from the body, is
caught and becomes the fixed-format error reply. -/
def analyticsReply (fetched : Except String Json) : String :=
  match fetched with
  | Except.error e => "Error al obtener analytics: " ++ e
  | Except.ok doc =>
      match analyticsBody doc with
      | Except.ok text => text
      | Except.error e => "Error al obtener analytics: " ++ e

/-- One iteration of the top20 loop at a given 1-based rank: read size
(default the string N/A), isLong (default True), coin (default the string
N/A), and render the line of the reply. -/
def traderLine (rank : Nat) (trader : Json) : Except String String := do
  let size ← pyGet trader "size" (Json.str "N/A")
  let is_long ← pyGet trader "isLong" (Json.bool true)
  let direction := if pyTruthy is_long then "LONG" else "SHORT"
  let coin ← pyGet trader "coin" (Json.str "N/A")
  pure (toString rank ++ ". " ++ pyStr size ++ " " ++ direction ++ " " ++ pyStr coin)

/-- The for loop of the top20 handler: enumerate the truncated user list from
rank k, appending one line per trader; an exception aborts the loop. -/
def renderLines (k : Nat) : List Json → Except String (List String)
  | [] => Except.ok []
  | t :: ts => do
      let line ← traderLine k t
      let rest ← renderLines (k + 1) ts
      pure (line :: rest)

/-- Lines of the top20 reply: slice the leaderboard document to its first 20
entries, then run the rendering loop with ranks starting at 1. -/
def top20Lines (doc : Json) : Except String (List String) := do
  let top_users ← pySlice doc 20
  renderLines 1 top_users

/-- Body of the try block of the top20 handler: build the lines, then join
them with newlines inside the fixed reply template. -/
def top20Body (doc : Json) : Except String String := do
  let lines ← top20Lines doc
  pure ("🏆 **Top 20 Posiciones Principales**\n\n" ++
    String.intercalate "\n" lines ++ "\n\n*Datos de Hyperliquid API.*")

/-- The top20 handler around its try/except: any exception, from the fetch or
from the body, is caught and becomes the fixed-format error reply. -/
def top20Reply (fetched : Except String Json) : String :=
  match fetched with
  | Except.error e => "Error al obtener top20: " ++ e
  | Except.ok doc =>
      match top20Body doc with
      | Except.ok text => text
      | Except.error e => "Error al obtener top20: " ++ e

/-- The static reply of the start handler. -/
def startReply : String :=
  "¡Bot iniciado correctamente!\n\nComandos disponibles:\n" ++
  "/start - Muestra este mensaje\n" ++
  "/analytics - Obtiene TOTAL NOTIONAL, LONG POSITIONS, SHORT POSITIONS y GLOBAL BIAS\n" ++
  "/top20 - Obtiene el top 20 de posiciones principales (tamaño, long/short, crypto)"

/-- The three chat commands routed by the application. -/
inductive Cmd where
  | start : Cmd
  | analytics : Cmd
  | top20 : Cmd
deriving DecidableEq

/-- Command dispatch: each handler maps the fetch outcome of its own
invocation to exactly one reply text. -/
def dispatch : Cmd → Except String Json → String
  | Cmd.start, _ => startReply
  | Cmd.analytics, r => analyticsReply r
  | Cmd.top20, r => top20Reply r

/-- A sequence of command invocations, each with its own fetch outcome: the
handlers keep no state across invocations, so the replies are the pointwise
image of the inputs. -/
def runCommands (l : List (Cmd × Except String Json)) : List String :=
  l.map (fun p => dispatch p.1 p.2)

/-- Bind of a successful Except computation reduces to the continuation. -/
theorem exceptBind_ok {ε α β : Type} (a : α) (f : α → Except ε β) :
    (Except.ok a : Except ε α) >>= f = f a := rfl

/-- Bind of a failed Except computation propagates the failure. -/
theorem exceptBind_error {ε α β : Type} (e : ε) (f : α → Except ε β) :
    (Except.error e : Except ε α) >>= f = Except.error e := rfl

/-- Pure of the Except monad is the ok constructor. -/
theorem exceptPure {ε α : Type} (a : α) :
    (pure a : Except ε α) = Except.ok a := rfl

/-- Claim C1 (counterexample): the analytics handler does not enforce
totalNotional = longNotional + shortNotional.  On an upstream document whose
fields are 5, 1 and 1 it reports exactly those values, and 5 is not 1 + 1. -/
theorem c1_total_not_sum_counterexample :
    analyticsReported (Json.obj [("totalNotional", Json.num 5),
        ("longNotional", Json.num 1), ("shortNotional", Json.num 1)])
      = Except.ok (Json.num 5, Json.num 1, Json.num 1, Json.str "N/A")
    ∧ analyticsReply (Except.ok (Json.obj [("totalNotional", Json.num 5),
        ("longNotional", Json.num 1), ("shortNotional", Json.num 1)]))
      = "📊 **Analytics de Hyperliquid**\n\n**TOTAL NOTIONAL:** 5\n**LONG POSITIONS:** 1\n**SHORT POSITIONS:** 1\n**GLOBAL BIAS:** N/A\n\n*Datos de Hyperliquid API.*"
    ∧ (5 : Int) ≠ 1 + 1 :=
  ⟨rfl, rfl, by decide⟩

/-- Claim C1 (amended): the analytics handler computes nothing; it reports
the totalNotional, longNotional, shortNotional and bias fields of the
upstream document verbatim, each defaulting to the string N/A when absent,
so the sum relation holds only when the upstream document itself satisfies
it. -/
theorem c1_fields_reported_verbatim (fs : List (String × Json)) :
    analyticsReported (Json.obj fs) = Except.ok
      ((fs.lookup "totalNotional").getD (Json.str "N/A"),
       (fs.lookup "longNotional").getD (Json.str "N/A"),
       (fs.lookup "shortNotional").getD (Json.str "N/A"),
       (fs.lookup "bias").getD (Json.str "N/A")) := rfl

/-- Claim C2 (counterexample): the bias the analytics handler reports is not
computed and not clamped: on a document with totalNotional 0 and bias 500,
the reported bias is 500, which is outside [-100, 100] and nonzero. -/
theorem c2_bias_not_computed_counterexample :
    analyticsReported (Json.obj [("totalNotional", Json.num 0), ("bias", Json.num 500)])
      = Except.ok (Json.num 0, Json.str "N/A", Json.str "N/A", Json.num 500)
    ∧ ¬ ((-100 : Int) ≤ 500 ∧ (500 : Int) ≤ 100)
    ∧ (500 : Int) ≠ 0 :=
  ⟨rfl, by decide, by decide⟩

/-- Claim C2 (amended): the bias slot of the analytics reply is the bias
field of the upstream document reported verbatim, defaulting to the string
N/A when absent; no formula and no range or zero-total guard applies. -/
theorem c2_bias_reported_verbatim (fs : List (String × Json)) :
    (analyticsReported (Json.obj fs)).map (fun r => r.2.2.2)
      = Except.ok ((fs.lookup "bias").getD (Json.str "N/A")) := rfl

/-- Claim C4 (counterexample): a leaderboard entry renders with the raw size
value and an uppercase direction, not rounded to millions, and an entry with
no fields renders N/A slots, not a literal no open positions line. -/
theorem c4_line_format_counterexample :
    traderLine 1 (Json.obj []) = Except.ok "1. N/A LONG N/A"
    ∧ "1. N/A LONG N/A" ≠ "1. no open positions"
    ∧ "1. N/A LONG N/A" ≠ "no open positions"
    ∧ traderLine 2 (Json.obj [("size", Json.num 12345678),
        ("isLong", Json.bool false), ("coin", Json.str "ETH")])
      = Except.ok "2. 12345678 SHORT ETH"
    ∧ "2. 12345678 SHORT ETH" ≠ "2. 12M Short ETH" :=
  ⟨rfl, by decide, by decide, rfl, by decide⟩

/-- Claim C4 (amended): each rank renders on one line as the rank, the raw
upstream size value rendered by str with no millions rounding (the string
N/A when absent), the uppercase direction LONG or SHORT from the truthiness
of isLong (default LONG), and the coin (the string N/A when absent); there
is no special no open positions line. -/
theorem c4_line_format_amended (rank : Nat) (fs : List (String × Json)) :
    traderLine rank (Json.obj fs) = Except.ok
      (toString rank ++ ". " ++ pyStr ((fs.lookup "size").getD (Json.str "N/A")) ++ " " ++
        (if pyTruthy ((fs.lookup "isLong").getD (Json.bool true)) then "LONG" else "SHORT") ++
        " " ++ pyStr ((fs.lookup "coin").getD (Json.str "N/A"))) := rfl

set_option maxRecDepth 10000 in
/-- Claim C8 (counterexample): the analytics reply renders a bias of -5 as
the bare text -5: no one-decimal formatting and no Long Bias suffix occurs
anywhere in the reply. -/
theorem c8_no_long_bias_suffix_counterexample :
    analyticsReply (Except.ok (Json.obj [("bias", Json.num (-5))]))
      = "📊 **Analytics de Hyperliquid**\n\n**TOTAL NOTIONAL:** N/A\n**LONG POSITIONS:** N/A\n**SHORT POSITIONS:** N/A\n**GLOBAL BIAS:** -5\n\n*Datos de Hyperliquid API.*"
    ∧ ¬ ("(Long Bias)".toList <:+: ("📊 **Analytics de Hyperliquid**\n\n**TOTAL NOTIONAL:** N/A\n**LONG POSITIONS:** N/A\n**SHORT POSITIONS:** N/A\n**GLOBAL BIAS:** -5\n\n*Datos de Hyperliquid API.*").toList)
    ∧ ¬ ("-5.0".toList <:+: ("📊 **Analytics de Hyperliquid**\n\n**TOTAL NOTIONAL:** N/A\n**LONG POSITIONS:** N/A\n**SHORT POSITIONS:** N/A\n**GLOBAL BIAS:** -5\n\n*Datos de Hyperliquid API.*").toList) :=
  ⟨rfl, by decide, by decide⟩

/-- Claim C8 (amended): the analytics reply renders the bias verbatim via
str into the fixed template, with no decimal formatting and no Long Bias
suffix appended by the handler. -/
theorem c8_bias_rendered_verbatim (fs : List (String × Json)) :
    analyticsBody (Json.obj fs) = Except.ok (analyticsTemplate
      (pyStr ((fs.lookup "totalNotional").getD (Json.str "N/A")))
      (pyStr ((fs.lookup "longNotional").getD (Json.str "N/A")))
      (pyStr ((fs.lookup "shortNotional").getD (Json.str "N/A")))
      (pyStr ((fs.lookup "bias").getD (Json.str "N/A")))) := rfl

/-- The rendering loop succeeds on a list of dict entries and produces
exactly one line per entry. -/
theorem renderLines_length (ts : List Json) :
    ∀ k : Nat, (∀ j ∈ ts, ∃ fs, j = Json.obj fs) →
      ∃ ls, renderLines k ts = Except.ok ls ∧ ls.length = ts.length := by
  induction ts with
  | nil => exact fun k _ => ⟨[], rfl, rfl⟩
  | cons t ts ih =>
    intro k h
    obtain ⟨fs, hfs⟩ := h t (List.mem_cons_self t ts)
    subst hfs
    obtain ⟨ls, hls, hlen⟩ := ih (k + 1) (fun j hj => h j (List.mem_cons_of_mem _ hj))
    obtain ⟨L, hL⟩ : ∃ L, traderLine k (Json.obj fs) = Except.ok L := ⟨_, rfl⟩
    refine ⟨L :: ls, ?_, by simp [hlen]⟩
    simp only [renderLines, hL, exceptBind_ok, hls]
    rfl

/-- Claim C3: every exception in the body of the analytics or top20 handler,
whether from the fetch or from computing and formatting, is caught and turned
into the fixed-format error reply that embeds the exception message; the
handlers are pure functions of the fetch outcome of their own invocation, so
a failing top20 invocation leaves the reply of any following command exactly
what that command computes on its own input. -/
theorem c3_exceptions_caught :
    (∀ e, analyticsReply (Except.error e) = "Error al obtener analytics: " ++ e)
    ∧ (∀ e, top20Reply (Except.error e) = "Error al obtener top20: " ++ e)
    ∧ (∀ doc m, analyticsBody doc = Except.error m →
        analyticsReply (Except.ok doc) = "Error al obtener analytics: " ++ m)
    ∧ (∀ doc m, top20Body doc = Except.error m →
        top20Reply (Except.ok doc) = "Error al obtener top20: " ++ m)
    ∧ (∀ e c r, runCommands [(Cmd.top20, Except.error e), (c, r)]
        = ["Error al obtener top20: " ++ e, dispatch c r]) := by
  refine ⟨fun e => rfl, fun e => rfl, ?_, ?_, fun e c r => rfl⟩
  · intro doc m h
    simp [analyticsReply, h]
  · intro doc m h
    simp [top20Reply, h]

/-- Witness for claim C3 at a concrete failing document: a numeric document
makes both handler bodies raise, and each handler replies with its error
string embedding the message. -/
theorem c3_exceptions_caught_witness :
    analyticsReply (Except.ok (Json.num 0))
      = "Error al obtener analytics: " ++ "int object has no attribute get"
    ∧ top20Reply (Except.ok (Json.num 0))
      = "Error al obtener top20: " ++ "int object is not subscriptable" :=
  ⟨c3_exceptions_caught.2.2.1 (Json.num 0) _ rfl,
   c3_exceptions_caught.2.2.2.1 (Json.num 0) _ rfl⟩

/-- Claim C5: the top20 handler uses only the first 20 leaderboard entries,
and when those entries are dicts the reply has exactly min(length, 20)
ranked lines, however long the upstream leaderboard is. -/
theorem c5_truncation_cap (xs : List Json)
    (h : ∀ j ∈ xs.take 20, ∃ fs, j = Json.obj fs) :
    top20Lines (Json.arr xs) = top20Lines (Json.arr (xs.take 20))
    ∧ ∃ lines, top20Lines (Json.arr xs) = Except.ok lines
        ∧ lines.length = min xs.length 20 := by
  constructor
  · simp [top20Lines, pySlice, List.take_take]
  · obtain ⟨ls, hls, hlen⟩ := renderLines_length (xs.take 20) 1 h
    refine ⟨ls, ?_, ?_⟩
    · simp only [top20Lines, pySlice, exceptBind_ok]
      exact hls
    · rw [hlen, List.length_take, Nat.min_comm]

/-- Witness for claim C5 on a 25-entry leaderboard of empty dicts: the lines
list exists and has exactly min(25, 20) = 20 entries. -/
theorem c5_truncation_cap_witness :
    ∃ lines, top20Lines (Json.arr (List.replicate 25 (Json.obj [])))
      = Except.ok lines
      ∧ lines.length = min (List.replicate 25 (Json.obj [])).length 20 :=
  (c5_truncation_cap (List.replicate 25 (Json.obj []))
    (by
      intro j hj
      rw [List.take_replicate] at hj
      exact ⟨[], List.eq_of_mem_replicate hj⟩)).2

/-- Claim C6 (counterexample): the fetch does not fail on every non-success
status: a 300 response with a parseable body is not a success (not in 2xx),
yet fetch_hyperliquid returns the parsed document, because raise_for_status
raises only on statuses in [400, 600). -/
theorem c6_nonsuccess_status_counterexample :
    fetch_hyperliquid (HttpResult.response 300 (some (Json.obj [])))
      = Except.ok (Json.obj [])
    ∧ ¬ (200 ≤ 300 ∧ 300 < 300) :=
  ⟨rfl, by decide⟩

/-- Claim C6 (amended): fetch_hyperliquid fails exactly when the network
request fails, the status is a 4xx or 5xx error (the statuses
raise_for_status raises on), or the body is not parseable JSON; on any
response whose status is outside [400, 600), 2xx or not, with a parseable
body, it returns the parsed document. -/
theorem c6_fetch_contract_amended (r : HttpResult) :
    ((∃ e, fetch_hyperliquid r = Except.error e) ↔
      ((∃ m, r = HttpResult.netError m)
        ∨ (∃ st b, r = HttpResult.response st b ∧ 400 ≤ st ∧ st < 600)
        ∨ (∃ st, r = HttpResult.response st none)))
    ∧ ∀ st j, r = HttpResult.response st (some j) → ¬ (400 ≤ st ∧ st < 600) →
        fetch_hyperliquid r = Except.ok j := by
  cases r with
  | netError m =>
    refine ⟨iff_of_true ⟨m, rfl⟩ (Or.inl ⟨m, rfl⟩), ?_⟩
    intro st j h
    cases h
  | response st body =>
    cases body with
    | none =>
      constructor
      · refine iff_of_true ?_ (Or.inr (Or.inr ⟨st, rfl⟩))
        by_cases h4 : 400 ≤ st ∧ st < 600
        · exact ⟨"HTTP status error " ++ toString st, by simp [fetch_hyperliquid, h4]⟩
        · exact ⟨"Expecting value: JSON decode failed", by simp [fetch_hyperliquid, h4]⟩
      · intro st' j h
        cases h
    | some j =>
      by_cases h4 : 400 ≤ st ∧ st < 600
      · constructor
        · refine iff_of_true
            ⟨"HTTP status error " ++ toString st, by simp [fetch_hyperliquid, h4]⟩ ?_
          exact Or.inr (Or.inl ⟨st, some j, rfl, h4⟩)
        · intro st' j' heq hn4
          injection heq with h1 h2'
          subst h1
          exact absurd h4 hn4
      · constructor
        · refine iff_of_false ?_ ?_
          · have hok : fetch_hyperliquid (HttpResult.response st (some j))
                = Except.ok j := by
              simp [fetch_hyperliquid, h4]
            rintro ⟨e, he⟩
            rw [hok] at he
            cases he
          · rintro (⟨m, hm⟩ | ⟨st', b', heq, h4'⟩ | ⟨st', heq⟩)
            · cases hm
            · injection heq with h1 h2'
              subst h1
              exact h4 h4'
            · injection heq with h1 h2'
              cases h2'
        · intro st' j' heq hn4
          injection heq with h1 h2'
          subst h1
          injection h2' with h3
          subst h3
          simp [fetch_hyperliquid, h4]

/-- Witness for claim C6 (amended): a 300 response with a parsed document
returns that document, and a 503 response with an unparseable body fails. -/
theorem c6_fetch_contract_amended_witness :
    fetch_hyperliquid (HttpResult.response 300 (some (Json.obj [])))
      = Except.ok (Json.obj [])
    ∧ (∃ e, fetch_hyperliquid (HttpResult.response 503 none) = Except.error e) :=
  ⟨(c6_fetch_contract_amended (HttpResult.response 300 (some (Json.obj [])))).2
      300 (Json.obj []) rfl (by omega),
   (c6_fetch_contract_amended (HttpResult.response 503 none)).1.mpr
      (Or.inr (Or.inl ⟨503, none, rfl, by omega⟩))⟩

/-- Claim C7: a missing field never fails a command: on any dict document the
analytics body succeeds (each absent field defaults), and on any leaderboard
array whose used prefix consists of dicts the top20 body succeeds (absent
size, isLong and coin fields default per entry). -/
theorem c7_missing_fields_default (fs : List (String × Json)) (xs : List Json)
    (h : ∀ j ∈ xs.take 20, ∃ gs, j = Json.obj gs) :
    (∃ t, analyticsBody (Json.obj fs) = Except.ok t)
    ∧ ∃ t, top20Body (Json.arr xs) = Except.ok t := by
  refine ⟨⟨_, rfl⟩, ?_⟩
  obtain ⟨ls, hls, _⟩ := renderLines_length (xs.take 20) 1 h
  refine ⟨"🏆 **Top 20 Posiciones Principales**\n\n" ++
    String.intercalate "\n" ls ++ "\n\n*Datos de Hyperliquid API.*", ?_⟩
  simp only [top20Body, top20Lines, pySlice, exceptBind_ok, hls, exceptPure]

/-- Witness for claim C7 on concrete empty-field inputs: the analytics body
succeeds on an empty dict and the top20 body succeeds on a one-entry
leaderboard whose entry is an empty dict. -/
theorem c7_missing_fields_default_witness :
    (∃ t, analyticsBody (Json.obj []) = Except.ok t)
    ∧ ∃ t, top20Body (Json.arr [Json.obj []]) = Except.ok t :=
  c7_missing_fields_default [] [Json.obj []]
    (by
      intro j hj
      simp only [List.take, List.mem_singleton] at hj
      exact ⟨[], hj⟩)

/-- Claim C9: reply rendering is deterministic and total: the handlers are
pure functions of the already-fetched data, with no time, locale or hidden
state parameter in scope, so two invocations on identical fetched data
produce byte-identical reply strings. -/
theorem c9_rendering_deterministic (d₁ d₂ : Except String Json) (h : d₁ = d₂) :
    analyticsReply d₁ = analyticsReply d₂ ∧ top20Reply d₁ = top20Reply d₂ :=
  ⟨congrArg analyticsReply h, congrArg top20Reply h⟩

/-- Witness for claim C9 at a concrete fetched document. -/
theorem c9_rendering_deterministic_witness :
    analyticsReply (Except.ok (Json.obj [("bias", Json.num 1)]))
      = analyticsReply (Except.ok (Json.obj [("bias", Json.num 1)]))
    ∧ top20Reply (Except.ok (Json.arr [Json.obj []]))
      = top20Reply (Except.ok (Json.arr [Json.obj []])) :=
  ⟨(c9_rendering_deterministic _ _ rfl).1, (c9_rendering_deterministic _ _ rfl).2⟩

/-- Claim C10: in the top20 line of an entry, a missing isLong field renders
the direction LONG (the default is True), a missing size field renders the
string N/A in the size slot, and a missing coin field renders the string N/A
in the coin slot. -/
theorem c10_missing_field_defaults (rank : Nat) (fs : List (String × Json)) :
    (fs.lookup "isLong" = none →
      ∃ sz co, traderLine rank (Json.obj fs)
        = Except.ok (toString rank ++ ". " ++ sz ++ " " ++ "LONG" ++ " " ++ co))
    ∧ (fs.lookup "size" = none →
      ∃ dir co, traderLine rank (Json.obj fs)
        = Except.ok (toString rank ++ ". " ++ "N/A" ++ " " ++ dir ++ " " ++ co))
    ∧ (fs.lookup "coin" = none →
      ∃ sz dir, traderLine rank (Json.obj fs)
        = Except.ok (toString rank ++ ". " ++ sz ++ " " ++ dir ++ " " ++ "N/A")) := by
  refine ⟨?_, ?_, ?_⟩
  · intro h
    refine ⟨pyStr ((fs.lookup "size").getD (Json.str "N/A")),
      pyStr ((fs.lookup "coin").getD (Json.str "N/A")), ?_⟩
    simp only [traderLine, pyGet, h, exceptBind_ok, exceptPure,
      Option.getD_none, pyTruthy, if_true]
  · intro h
    refine ⟨if pyTruthy ((fs.lookup "isLong").getD (Json.bool true))
        then "LONG" else "SHORT",
      pyStr ((fs.lookup "coin").getD (Json.str "N/A")), ?_⟩
    simp only [traderLine, pyGet, h, exceptBind_ok, exceptPure,
      Option.getD_none, pyStr]
  · intro h
    refine ⟨pyStr ((fs.lookup "size").getD (Json.str "N/A")),
      if pyTruthy ((fs.lookup "isLong").getD (Json.bool true))
        then "LONG" else "SHORT", ?_⟩
    simp only [traderLine, pyGet, h, exceptBind_ok, exceptPure,
      Option.getD_none, pyStr]

/-- Witness for claim C10 at rank 7 on an entry with no fields at all. -/
theorem c10_missing_field_defaults_witness :
    (∃ sz co, traderLine 7 (Json.obj [])
      = Except.ok (toString 7 ++ ". " ++ sz ++ " " ++ "LONG" ++ " " ++ co))
    ∧ (∃ dir co, traderLine 7 (Json.obj [])
      = Except.ok (toString 7 ++ ". " ++ "N/A" ++ " " ++ dir ++ " " ++ co))
    ∧ (∃ sz dir, traderLine 7 (Json.obj [])
      = Except.ok (toString 7 ++ ". " ++ sz ++ " " ++ dir ++ " " ++ "N/A")) :=
  ⟨(c10_missing_field_defaults 7 []).1 rfl,
   (c10_missing_field_defaults 7 []).2.1 rfl,
   (c10_missing_field_defaults 7 []).2.2 rfl⟩
